import Mathlib

/-
Formal model of the Windows build driver of element-builder
(src/src/windows_builder.ts), together with the process executor
(src/src/spawn.ts) and the local runner (src/src/runner.ts).

External effects (child processes, the hypervisor CLI, timers, the
filesystem) are modelled by explicit oracles and event traces; clock-bounded
while loops are modelled with an iteration count derived from the timeout
constant divided by the fixed per-iteration sleep, since every call in the
loop body is modelled as instantaneous.
-/

namespace ElementBuilder

/-! ## Script assembly: WindowsBuilder.appendScript (windows_builder.ts lines 163-170) -/

/-- The space character, written via its code point. -/
def spaceChar : Char := Char.ofNat 32

/-- The value computed by the callback passed to Array.prototype.filter in
appendScript: the argument wrapped in double quotes when it contains a
space, the argument itself otherwise. The includes test for the
single-character space string is the membership of the space character in
the character list of the argument. -/
def quoteArg (x : String) : String :=
  if x.data.contains spaceChar then "\"" ++ x ++ "\"" else x

/-- JavaScript truthiness of a string: every string except the empty one. -/
def strTruthy (s : String) : Bool := s ≠ ""

/-- The guard line appended after every command line. -/
def guardLine : String := "if %errorlevel% neq 0 exit /b %errorlevel%\r\n"

/-- WindowsBuilder.appendScript, as the source writes it: the callback result
is fed to Array.prototype.filter, so an argument is KEPT when the callback
value is truthy and is never replaced by it. The quoted string built inside
the callback is discarded. -/
def appendScript (script : String) (args : List String) : String :=
  script
    ++ String.intercalate " " (args.filter (fun x => strTruthy (quoteArg x)))
    ++ "\r\n"
    ++ guardLine

/-- The claim-side variant of appendScript, following the words of the spec:
each argument containing a space is wrapped in double quotes (the callback
used as a map, not a filter). -/
def appendScriptSpec (script : String) (args : List String) : String :=
  script
    ++ String.intercalate " " (args.map quoteArg)
    ++ "\r\n"
    ++ guardLine

/-! ## Process executor: spawn (spawn.ts lines 21-58) and Runner.run
(runner.ts lines 38-50) exit handling -/

/-- The structured error raised by spawn on a non-zero exit code: the code
and the captured combined log. -/
structure LoggableError where
  code : Int
  log : String
deriving DecidableEq, Repr

/-- Exit handling of spawn (spawn.ts lines 48-56): the exit callback receives
an optional numeric code; a falsy code (absent, as on signal termination, or
zero) resolves, any other numeric code rejects with a LoggableError holding
the code and the captured log extended with the exit-code line. -/
def spawnExit : Option Int → String → Except LoggableError Unit
  | none, _ => Except.ok ()
  | some c, log =>
      if c = 0 then Except.ok ()
      else Except.error ⟨c, log ++ "\nExit code: " ++ toString c⟩

/-- Exit handling of Runner.run (runner.ts lines 46-48): code ? reject(code)
: resolve(), so a falsy code resolves and a non-zero code rejects with the
bare code. -/
def runnerExit : Option Int → Except Int Unit
  | none => Except.ok ()
  | some c => if c = 0 then Except.ok () else Except.error c

/-! ## WindowsBuilder.runScript (windows_builder.ts lines 172-199) and
WindowsBuilder.run (lines 201-228) -/

/-- The fixed vcvarsall path constant (windows_builder.ts lines 30-32). -/
def VCVARSALL : String :=
  "C:\\Program Files (x86)\\Microsoft Visual Studio\\2019\\BuildTools\\VC\\Auxiliary\\Build\\vcvarsall.bat"

/-- The contents runScript writes to tmp.cmd (lines 175-180): an echo-on
line, the vcvarsall call with the architecture selector, a change of working
directory, then the accumulated script. -/
def fileContents (vcvarsArch script : String) : String :=
  "echo on\r\n"
    ++ "call \"" ++ VCVARSALL ++ "\" " ++ vcvarsArch ++ "\r\n"
    ++ "cd /D %userprofile%\r\n"
    ++ script

/-- The claim-side file contents, following the words of the spec sentence
for C9: exactly the toolchain-environment call and the working-directory
change, followed by the accumulated script. -/
def fileContentsSpec (vcvarsArch script : String) : String :=
  "call \"" ++ VCVARSALL ++ "\" " ++ vcvarsArch ++ "\r\n"
    ++ "cd /D %userprofile%\r\n"
    ++ script

/-- The argument list WindowsBuilder.run builds for the guestcontrol call
(lines 204-225): credentials, the run subcommand, the two fixed environment
assignments, one -E assignment per extra environment entry, then the
executable and the command line. -/
def guestCtlArgs (vmName username password buildkiteKey keyContainer : String)
    (env : List (String × String)) (runStr : String) : List String :=
  [vmName, "--username", username, "--password", password, "run",
   "-E", "BUILDKITE_API_KEY=" ++ buildkiteKey,
   "-E", "SIGNING_KEY_CONTAINER=" ++ keyContainer]
  ++ env.flatMap (fun kv => ["-E", kv.1 ++ "=" ++ kv.2])
  ++ ["--exe", "cmd.exe", "--", "cmd", "/C", runStr]

/-- Host-side effects of runScript, as trace events: the write of the
temporary file, the guest execution, the deletion of the temporary file. -/
inductive FsEvent
  | write (p contents : String)
  | guestExec (args : List String)
  | unlink (p : String)
deriving DecidableEq, Repr

/-- WindowsBuilder.runScript: writes fileContents to tmp.cmd in the build
directory, runs z:\tmp.cmd in the guest (outcome supplied by the guestRun
oracle), and unlinks the temporary file in a finally block on both the
success path and the error path, with the guest outcome then returned or
rethrown unchanged. The path join of cwd and tmp.cmd is modelled with a
slash separator. -/
def runScript (cwd vmName username password buildkiteKey keyContainer : String)
    (env : List (String × String)) (vcvarsArch script : String)
    (guestRun : Except LoggableError Unit) :
    List FsEvent × Except LoggableError Unit :=
  let tmp := cwd ++ "/tmp.cmd"
  let pre : List FsEvent :=
    [FsEvent.write tmp (fileContents vcvarsArch script),
     FsEvent.guestExec
       (guestCtlArgs vmName username password buildkiteKey keyContainer env "z:\\tmp.cmd")]
  match guestRun with
  | Except.ok r => (pre ++ [FsEvent.unlink tmp], Except.ok r)
  | Except.error e => (pre ++ [FsEvent.unlink tmp], Except.error e)

/-- One step of the host filesystem: a write creates the file, an unlink
removes it, a guest execution leaves it unchanged. -/
def applyFsEvent (files : List String) : FsEvent → List String
  | FsEvent.write p _ => if p ∈ files then files else p :: files
  | FsEvent.unlink p => files.filter (fun q => q ≠ p)
  | FsEvent.guestExec _ => files

/-- The set of files existing after a trace, starting from an empty
directory. -/
def filesAfter (events : List FsEvent) : List String :=
  events.foldl applyFsEvent []

/-- Whether an event is an unlink of the given path. -/
def isUnlink (p : String) : FsEvent → Bool
  | FsEvent.unlink q => q = p
  | _ => false

/-- How many times a trace unlinks the given path. -/
def unlinkCount (p : String) (events : List FsEvent) : Nat :=
  (events.filter (isUnlink p)).length

/-! ## Timeout constants (windows_builder.ts lines 25-26) -/

/-- STARTVM_TIMEOUT = 90 * 1000 milliseconds. -/
def STARTVM_TIMEOUT : Nat := 90 * 1000

/-- POWEROFF_TIMEOUT = 20 * 1000 milliseconds. -/
def POWEROFF_TIMEOUT : Nat := 20 * 1000

/-! ## WindowsBuilder.stop (windows_builder.ts lines 130-151)

The shutdown poll loop sleeps 1000 ms per iteration and compares the clock
against a deadline POWEROFF_TIMEOUT in the future; with the isRunning query
modelled as instantaneous, the loop runs at most POWEROFF_TIMEOUT / 1000
iterations. The per-poll isRunning oracle may itself fail (execFile
rejection), which the source does not catch. -/

/-- Result of a completed stop call. -/
structure StopResult where
  cleanShutdown : Bool
  poweroffAttempted : Bool
  polls : Nat
deriving DecidableEq, Repr

/-- The shutdown poll loop: while the VM is reported running and iterations
remain, sleep and query isRunning again. Returns the final running flag and
the number of polls performed, or the error of a failed query. -/
def stopPollAux (poll : Nat → Except String Bool) :
    Nat → Bool → Nat → Except String (Bool × Nat)
  | _, false, i => Except.ok (false, i)
  | 0, true, i => Except.ok (true, i)
  | fuel + 1, true, i =>
      match poll i with
      | Except.error e => Except.error e
      | Except.ok r => stopPollAux poll fuel r (i + 1)

/-- WindowsBuilder.stop. The acpipowerbutton control call (line 134) is
issued without await, so its outcome (acpiOk) never reaches the caller; if
the VM is still reported running after the poll loop, the forced poweroff is
attempted inside try/catch with an empty catch, so its outcome (poweroffOk)
never reaches the caller either. Only a failing isRunning query can make
stop itself fail. -/
def stop (acpiOk : Bool) (poll : Nat → Except String Bool) (poweroffOk : Bool) :
    Except String StopResult :=
  match stopPollAux poll (POWEROFF_TIMEOUT / 1000) true 0 with
  | Except.error e => Except.error e
  | Except.ok (true, n) =>
      Except.ok { cleanShutdown := false, poweroffAttempted := true, polls := n }
  | Except.ok (false, n) =>
      Except.ok { cleanShutdown := true, poweroffAttempted := false, polls := n }

/-! ## WindowsBuilder.mapBuildDir (windows_builder.ts lines 98-128)

Each loop iteration increments the attempt counter and then performs the
delete / net use / verify sequence; the oracle attemptOk gives the outcome
of the whole sequence for the 1-based attempt number. The loop runs while
attempts < 5. -/

/-- The mapping retry loop. On success returns the number of attempts
performed; after exhausting the fuel, the source throws the error with 5
attempts performed, which the model carries alongside the message. -/
def mapLoopAux (attemptOk : Nat → Bool) : Nat → Nat → Except (String × Nat) Nat
  | 0, attempts => Except.error ("Unable to map network drive", attempts)
  | fuel + 1, attempts =>
      if attemptOk (attempts + 1) then Except.ok (attempts + 1)
      else mapLoopAux attemptOk fuel (attempts + 1)

/-- WindowsBuilder.mapBuildDir: first the sharedfolder add control call
(whose failure propagates, with zero mapping attempts performed), then up to
5 mapping attempts. -/
def mapBuildDir (addOk : Bool) (attemptOk : Nat → Bool) : Except (String × Nat) Nat :=
  if addOk then mapLoopAux attemptOk 5 0
  else Except.error ("sharedfolder add failed", 0)

/-! ## WindowsBuilder.start (windows_builder.ts lines 54-87)

The boot poll loop (lines 75-81) computes a deadline STARTVM_TIMEOUT in the
future, pings, exits on success, and otherwise sleeps 2000 ms; with the ping
modelled as instantaneous the loop performs at most STARTVM_TIMEOUT / 2000
pings. -/

/-- The boot poll loop: returns whether a ping succeeded and how many pings
were performed (the ping with 0-based index n is poll number n + 1). -/
def bootPollAux (pingOk : Nat → Bool) : Nat → Nat → Bool × Nat
  | 0, polls => (false, polls)
  | fuel + 1, polls =>
      if pingOk polls then (true, polls + 1)
      else bootPollAux pingOk fuel (polls + 1)

/-- The boot poll loop at its full budget of STARTVM_TIMEOUT / 2000 polls. -/
def bootPoll (pingOk : Nat → Bool) : Bool × Nat :=
  bootPollAux pingOk (STARTVM_TIMEOUT / 2000) 0

/-- Oracles for one execution of start: the initial isRunning answer, the
behaviour of the internal stop (acpi outcome, per-poll isRunning answers,
forced poweroff outcome), the snapshot restore and startvm control calls,
the per-poll guest ping, and the mapping step oracles. -/
structure StartEnv where
  isRunningInit : Bool
  acpiOk : Bool
  stopPollOk : Nat → Except String Bool
  poweroffOk : Bool
  restoreOk : Bool
  startVmOk : Bool
  sharedFolderAddOk : Bool
  pingOk : Nat → Bool
  mapAttemptOk : Nat → Bool

/-- Observable outcome of one execution of start. vmRunningAtRestore records
whether the VM is still running at the moment the snapshot restore is
attempted: it is running there exactly when it was initially running, the
internal stop timed out still running, and the forced poweroff failed (the
source rechecks nothing after stop returns). -/
structure StartResult where
  stopCalled : Bool
  vmRunningAtRestore : Bool
  restoreAttempted : Bool
  bootPolls : Nat
  mapAttempts : Nat
  outcome : Except String Unit
deriving Repr

/-- The part of WindowsBuilder.start after the conditional internal stop:
settle sleep, snapshot restore (attempted unconditionally, the source
rechecks nothing after stop returns), startvm, settle sleep, boot poll
loop, then mapBuildDir. -/
def startTail (vmName : String) (env : StartEnv)
    (stopCalled stillRunning : Bool) : StartResult :=
  if env.restoreOk then
    if env.startVmOk then
      match bootPoll env.pingOk with
      | (true, polls) =>
          match mapBuildDir env.sharedFolderAddOk env.mapAttemptOk with
          | Except.ok n =>
              { stopCalled, vmRunningAtRestore := stillRunning,
                restoreAttempted := true, bootPolls := polls,
                mapAttempts := n, outcome := Except.ok () }
          | Except.error (e, n) =>
              { stopCalled, vmRunningAtRestore := stillRunning,
                restoreAttempted := true, bootPolls := polls,
                mapAttempts := n, outcome := Except.error e }
      | (false, polls) =>
          { stopCalled, vmRunningAtRestore := stillRunning,
            restoreAttempted := true, bootPolls := polls,
            mapAttempts := 0,
            outcome := Except.error ("Failed to start VM: " ++ vmName) }
    else
      { stopCalled, vmRunningAtRestore := stillRunning,
        restoreAttempted := true, bootPolls := 0, mapAttempts := 0,
        outcome := Except.error "startvm failed" }
  else
    { stopCalled, vmRunningAtRestore := stillRunning,
      restoreAttempted := true, bootPolls := 0, mapAttempts := 0,
      outcome := Except.error "snapshot restore failed" }

/-- WindowsBuilder.start: optional internal stop, then the settle /
restore / startvm / boot-poll / mapping tail. setDonglePower is a no-op
when the uhubctl environment variables are unset (the default) and is
modelled as such. The VM is still running at the restore exactly when the
internal stop ran, timed out still running, and its forced power-off
failed. -/
def start (vmName : String) (env : StartEnv) : StartResult :=
  let stopCalled := env.isRunningInit
  let stopStep : Except String Bool :=
    if env.isRunningInit then
      match stop env.acpiOk env.stopPollOk env.poweroffOk with
      | Except.error e => Except.error e
      | Except.ok r => Except.ok (!r.cleanShutdown && !env.poweroffOk)
    else Except.ok false
  match stopStep with
  | Except.error e =>
      { stopCalled, vmRunningAtRestore := false, restoreAttempted := false,
        bootPolls := 0, mapAttempts := 0, outcome := Except.error e }
  | Except.ok stillRunning => startTail vmName env stopCalled stillRunning

/-! ## Theorems -/

/-- C1: the claim says every argument containing a space is wrapped in
double quotes. The source feeds the quoting callback to
Array.prototype.filter, which only tests truthiness of the callback value
and keeps the original element, so the quoted string is discarded: the
appended command line for appendScript with arguments echo and a
space-containing argument carries that argument unquoted (while the
spec-side map variant quotes it), though the guard line does follow the
command line. -/
theorem c1_appendScript_filter_discards_quoting :
    appendScript "" ["echo", "hello world"] = "echo hello world\r\n" ++ guardLine
    ∧ appendScriptSpec "" ["echo", "hello world"] = "echo \"hello world\"\r\n" ++ guardLine
    ∧ appendScript "" ["echo", "hello world"]
        ≠ appendScriptSpec "" ["echo", "hello world"] := by
  refine ⟨by decide, by decide, by decide⟩

/-- C10: spawn resolves on every falsy exit code, including an absent code
as on signal termination and the zero code, and rejects with a
LoggableError carrying the code and the captured log exactly when the code
is a non-zero number; Runner.run applies the same falsy test to the bare
code. -/
theorem c10_spawn_resolves_on_falsy_code (log : String) (c : Int) (hc : c ≠ 0) :
    spawnExit none log = Except.ok ()
    ∧ spawnExit (some 0) log = Except.ok ()
    ∧ spawnExit (some c) log
        = Except.error ⟨c, log ++ "\nExit code: " ++ toString c⟩
    ∧ runnerExit none = Except.ok ()
    ∧ runnerExit (some 0) = Except.ok ()
    ∧ runnerExit (some c) = Except.error c := by
  refine ⟨rfl, by simp [spawnExit], by simp [spawnExit, hc],
          rfl, by simp [runnerExit], by simp [runnerExit, hc]⟩

/-- Witness for C10 at the concrete non-zero code 1. -/
theorem c10_spawn_resolves_on_falsy_code_witness :
    spawnExit (some 1) "out"
      = Except.error ⟨1, "out" ++ "\nExit code: " ++ toString (1 : Int)⟩ :=
  (c10_spawn_resolves_on_falsy_code "out" 1 (by decide)).2.2.1

/-- C7: when the guest execution exits with code 1 and captured text
error: nope, the spawn layer rejects with a LoggableError carrying code 1
and the captured text, runScript propagates exactly that error, and after
the runScript trace the temporary script file no longer exists; the spawn
layer resolves on exit code 0. -/
theorem c7_runScript_nonzero_exit (cwd vm user pass bk kc arch script : String)
    (env : List (String × String)) :
    (runScript cwd vm user pass bk kc env arch script
        (spawnExit (some 1) "error: nope")).2
      = Except.error ⟨1, "error: nope" ++ "\nExit code: " ++ toString (1 : Int)⟩
    ∧ (cwd ++ "/tmp.cmd") ∉
        filesAfter (runScript cwd vm user pass bk kc env arch script
          (spawnExit (some 1) "error: nope")).1
    ∧ spawnExit (some 0) "error: nope" = Except.ok () := by
  refine ⟨by simp [runScript, spawnExit], ?_, by simp [spawnExit]⟩
  simp [runScript, spawnExit, filesAfter, applyFsEvent]

/-- C6: runScript unlinks the temporary script file exactly once, whether
the guest execution resolves or rejects, and hands the guest outcome back
unchanged. -/
theorem c6_runScript_unlinks_once (cwd vm user pass bk kc arch script : String)
    (env : List (String × String)) (guestRun : Except LoggableError Unit) :
    unlinkCount (cwd ++ "/tmp.cmd")
        (runScript cwd vm user pass bk kc env arch script guestRun).1 = 1
    ∧ (runScript cwd vm user pass bk kc env arch script guestRun).2 = guestRun := by
  cases guestRun <;> simp [runScript, unlinkCount, isUnlink]

/-- C9 counterexample: the claim says the temporary file holds exactly the
toolchain-environment call and the working-directory change followed by the
accumulated script, but the source writes an echo-on line first, so the
written contents differ from the claimed contents already for the empty
accumulated script. -/
theorem c9_file_not_exactly_claimed_contents :
    fileContents "amd64" "" ≠ fileContentsSpec "amd64" "" := by decide

/-- The file written by runScript is the claimed contents with one extra
echo-on line in front. -/
theorem fileContents_eq_echo_on_then_claimed (arch script : String) :
    fileContents arch script = "echo on\r\n" ++ fileContentsSpec arch script := by
  unfold fileContents fileContentsSpec
  rw [String.append_assoc "echo on\r\n" "call \"" VCVARSALL]
  rw [String.append_assoc "echo on\r\n" ("call \"" ++ VCVARSALL) "\" "]
  rw [String.append_assoc "echo on\r\n" ("call \"" ++ VCVARSALL ++ "\" ") arch]
  rw [String.append_assoc "echo on\r\n"
    ("call \"" ++ VCVARSALL ++ "\" " ++ arch) "\r\n"]
  rw [String.append_assoc "echo on\r\n"
    ("call \"" ++ VCVARSALL ++ "\" " ++ arch ++ "\r\n") "cd /D %userprofile%\r\n"]
  rw [String.append_assoc "echo on\r\n"
    ("call \"" ++ VCVARSALL ++ "\" " ++ arch ++ "\r\n" ++ "cd /D %userprofile%\r\n")
    script]

/-- C9 as amended: the file written by runScript is exactly an echo-on line
followed by the toolchain-environment call, the working-directory change
and the accumulated script — independent of the signing-key container and
the extra environment variables, which appear instead as explicit -E
assignments on the guest-execute argument list. -/
theorem c9_runScript_contents_and_guest_env
    (cwd vm user pass bk kc arch script : String) (env : List (String × String))
    (guestRun : Except LoggableError Unit) (kv : String × String) (hkv : kv ∈ env) :
    (runScript cwd vm user pass bk kc env arch script guestRun).1
      = [FsEvent.write (cwd ++ "/tmp.cmd")
           ("echo on\r\n" ++ fileContentsSpec arch script),
         FsEvent.guestExec (guestCtlArgs vm user pass bk kc env "z:\\tmp.cmd"),
         FsEvent.unlink (cwd ++ "/tmp.cmd")]
    ∧ ("SIGNING_KEY_CONTAINER=" ++ kc)
        ∈ guestCtlArgs vm user pass bk kc env "z:\\tmp.cmd"
    ∧ (kv.1 ++ "=" ++ kv.2) ∈ guestCtlArgs vm user pass bk kc env "z:\\tmp.cmd" := by
  refine ⟨?_, ?_, ?_⟩
  · cases guestRun <;> simp [runScript, fileContents_eq_echo_on_then_claimed]
  · simp [guestCtlArgs]
  · have h2 : (kv.1 ++ "=" ++ kv.2)
        ∈ env.flatMap (fun kv => ["-E", kv.1 ++ "=" ++ kv.2]) :=
      List.mem_flatMap.mpr ⟨kv, hkv, by simp⟩
    show (kv.1 ++ "=" ++ kv.2) ∈ guestCtlArgs vm user pass bk kc env "z:\\tmp.cmd"
    unfold guestCtlArgs
    exact List.mem_append_left _ (List.mem_append_right _ h2)

/-- If every isRunning query answers without failing, the shutdown poll
loop answers without failing. -/
theorem stopPollAux_ok (poll : Nat → Except String Bool)
    (h : ∀ i, ∃ b, poll i = Except.ok b) :
    ∀ fuel r i, ∃ v, stopPollAux poll fuel r i = Except.ok v := by
  intro fuel
  induction fuel with
  | zero => intro r i; cases r <;> exact ⟨_, rfl⟩
  | succ fuel ih =>
      intro r i
      cases r with
      | false => exact ⟨_, rfl⟩
      | true =>
          obtain ⟨b, hb⟩ := h i
          obtain ⟨v, hv⟩ := ih b (i + 1)
          exact ⟨v, by simp [stopPollAux, hb, hv]⟩

/-- If every isRunning query reports the VM still running, the shutdown
poll loop runs through its whole budget and ends still running. -/
theorem stopPollAux_all_running (poll : Nat → Except String Bool)
    (h : ∀ i, poll i = Except.ok true) :
    ∀ fuel i, stopPollAux poll fuel true i = Except.ok (true, i + fuel) := by
  intro fuel
  induction fuel with
  | zero => intro i; rfl
  | succ fuel ih =>
      intro i
      have := ih (i + 1)
      simp [stopPollAux, h i, this]
      omega

/-- C3: stop returns normally whenever the isRunning queries themselves
answer, whatever the outcomes of the unawaited ACPI power-button call and
the forced power-off call; in particular, when every poll of the 20-second
window reports the VM still running, stop polls the full window, escalates
to the forced power-off, swallows its failure and still returns a normal
result. -/
theorem c3_stop_never_raises (acpiOk poweroffOk : Bool)
    (poll : Nat → Except String Bool) (h : ∀ i, ∃ b, poll i = Except.ok b) :
    (∃ r, stop acpiOk poll poweroffOk = Except.ok r)
    ∧ ((∀ i, poll i = Except.ok true) →
        stop acpiOk poll poweroffOk
          = Except.ok { cleanShutdown := false, poweroffAttempted := true,
                        polls := POWEROFF_TIMEOUT / 1000 }) := by
  constructor
  · obtain ⟨⟨b, n⟩, hv⟩ := stopPollAux_ok poll h (POWEROFF_TIMEOUT / 1000) true 0
    cases b with
    | false =>
        exact ⟨{ cleanShutdown := true, poweroffAttempted := false, polls := n },
          by simp [stop, hv]⟩
    | true =>
        exact ⟨{ cleanShutdown := false, poweroffAttempted := true, polls := n },
          by simp [stop, hv]⟩
  · intro hall
    have := stopPollAux_all_running poll hall (POWEROFF_TIMEOUT / 1000) 0
    simp [stop, this]

/-- Witness for C3: both the ACPI power-button and the forced power-off
fail, the VM stays running throughout, and stop still returns normally. -/
theorem c3_stop_never_raises_witness :
    stop false (fun _ => Except.ok true) false
      = Except.ok { cleanShutdown := false, poweroffAttempted := true,
                    polls := POWEROFF_TIMEOUT / 1000 } :=
  (c3_stop_never_raises false false (fun _ => Except.ok true)
    (fun _ => ⟨true, rfl⟩)).2 (fun _ => rfl)

/-- If every mapping attempt fails, the retry loop consumes its whole fuel
and reports the mapping error with the total attempt count. -/
theorem mapLoopAux_all_fail (attemptOk : Nat → Bool)
    (h : ∀ i, attemptOk i = false) :
    ∀ fuel a, mapLoopAux attemptOk fuel a
      = Except.error ("Unable to map network drive", a + fuel) := by
  intro fuel
  induction fuel with
  | zero => intro a; rfl
  | succ fuel ih =>
      intro a
      have := ih (a + 1)
      simp [mapLoopAux, h (a + 1), this]
      omega

/-- If the first N attempts fail and attempt N + 1 succeeds within the
budget, the retry loop returns having performed exactly N + 1 attempts. -/
theorem mapLoopAux_first_success (attemptOk : Nat → Bool) :
    ∀ N fuel a, N < fuel →
      (∀ j, a < j → j ≤ a + N → attemptOk j = false) →
      attemptOk (a + N + 1) = true →
      mapLoopAux attemptOk fuel a = Except.ok (a + N + 1) := by
  intro N
  induction N with
  | zero =>
      intro fuel a hfuel _ hsucc
      cases fuel with
      | zero => omega
      | succ fuel => simp [mapLoopAux, show attemptOk (a + 1) = true by simpa using hsucc]
  | succ N ih =>
      intro fuel a hfuel hfail hsucc
      cases fuel with
      | zero => omega
      | succ fuel =>
          have h1 : attemptOk (a + 1) = false := hfail (a + 1) (by omega) (by omega)
          have h2 : mapLoopAux attemptOk fuel (a + 1) = Except.ok (a + 1 + N + 1) := by
            refine ih fuel (a + 1) (by omega) ?_ ?_
            · intro j hj1 hj2
              exact hfail j (by omega) (by omega)
            · have : a + 1 + N + 1 = a + (N + 1) + 1 := by omega
              rw [this]; exact hsucc
          have h3 : a + 1 + N + 1 = a + (N + 1) + 1 := by omega
          rw [h3] at h2
          simp [mapLoopAux, h1, h2]

/-- A successful run of the retry loop performed at least one attempt
beyond the count it started from. -/
theorem mapLoopAux_ok_pos (attemptOk : Nat → Bool) :
    ∀ fuel a n, mapLoopAux attemptOk fuel a = Except.ok n → a < n := by
  intro fuel
  induction fuel with
  | zero => intro a n h; exact absurd h (by simp [mapLoopAux])
  | succ fuel ih =>
      intro a n h
      by_cases hc : attemptOk (a + 1) = true
      · simp [mapLoopAux, hc] at h
        omega
      · simp [mapLoopAux, hc] at h
        have := ih (a + 1) n h
        omega

/-- If no ping ever succeeds, the boot poll loop consumes its whole fuel. -/
theorem bootPollAux_all_fail (pingOk : Nat → Bool) (h : ∀ n, pingOk n = false) :
    ∀ fuel i, bootPollAux pingOk fuel i = (false, i + fuel) := by
  intro fuel
  induction fuel with
  | zero => intro i; rfl
  | succ fuel ih =>
      intro i
      have := ih (i + 1)
      simp [bootPollAux, h i, this]
      omega

/-- If the first k pings fail and ping k succeeds within the budget, the
boot poll loop exits successfully on that ping. -/
theorem bootPollAux_first_success (pingOk : Nat → Bool) :
    ∀ k fuel i, k < fuel →
      (∀ j, j < k → pingOk (i + j) = false) →
      pingOk (i + k) = true →
      bootPollAux pingOk fuel i = (true, i + k + 1) := by
  intro k
  induction k with
  | zero =>
      intro fuel i hfuel _ hsucc
      cases fuel with
      | zero => omega
      | succ fuel => simp [bootPollAux, show pingOk i = true by simpa using hsucc]
  | succ k ih =>
      intro fuel i hfuel hfail hsucc
      cases fuel with
      | zero => omega
      | succ fuel =>
          have h1 : pingOk i = false := by simpa using hfail 0 (by omega)
          have h2 : bootPollAux pingOk fuel (i + 1) = (true, i + 1 + k + 1) := by
            refine ih fuel (i + 1) (by omega) ?_ ?_
            · intro j hj
              have := hfail (j + 1) (by omega)
              simpa [Nat.add_assoc, Nat.add_comm 1 j] using this
            · have : i + 1 + k = i + (k + 1) := by omega
              rw [this]; exact hsucc
          have h3 : i + 1 + k + 1 = i + (k + 1) + 1 := by omega
          rw [h3] at h2
          simp [bootPollAux, h1, h2]

/-- A successful mapBuildDir performed at least one attempt. -/
theorem mapBuildDir_ok_pos (addOk : Bool) (attemptOk : Nat → Bool) (n : Nat)
    (h : mapBuildDir addOk attemptOk = Except.ok n) : 1 ≤ n := by
  by_cases ha : addOk = true
  · simp [mapBuildDir, ha] at h
    exact mapLoopAux_ok_pos attemptOk 5 0 n h
  · simp [mapBuildDir, ha] at h

/-- C2: with the VM not initially running and the boot steps succeeding,
the mapping step inside start retries up to 5 times: when the first N
attempts fail and attempt N + 1 succeeds (N < 5), start succeeds having
performed exactly N + 1 mapping attempts; when every attempt fails, start
fails with the mapping error after exactly 5 attempts. -/
theorem c2_start_mapping_retries (vmName : String) (env : StartEnv) (N : Nat)
    (hrun : env.isRunningInit = false) (hrestore : env.restoreOk = true)
    (hstart : env.startVmOk = true) (hping : env.pingOk 0 = true)
    (hadd : env.sharedFolderAddOk = true) :
    ((N < 5 →
       (∀ i, 1 ≤ i → i ≤ N → env.mapAttemptOk i = false) →
       env.mapAttemptOk (N + 1) = true →
       (start vmName env).outcome = Except.ok ()
         ∧ (start vmName env).mapAttempts = N + 1)
     ∧ ((∀ i, env.mapAttemptOk i = false) →
       (start vmName env).outcome = Except.error "Unable to map network drive"
         ∧ (start vmName env).mapAttempts = 5)) := by
  have hb : bootPoll env.pingOk = (true, 1) := by
    have := bootPollAux_first_success env.pingOk 0 (STARTVM_TIMEOUT / 2000) 0
      (by norm_num [STARTVM_TIMEOUT]) (fun j hj => absurd hj (Nat.not_lt_zero j))
      (by simpa using hping)
    simpa [bootPoll] using this
  constructor
  · intro hN hfail hsucc
    have hm : mapLoopAux env.mapAttemptOk 5 0 = Except.ok (N + 1) := by
      have := mapLoopAux_first_success env.mapAttemptOk N 5 0 hN
        (fun j hj1 hj2 => hfail j (by omega) (by omega)) (by simpa using hsucc)
      simpa using this
    constructor <;>
      simp [start, startTail, hrun, hrestore, hstart, hb, mapBuildDir, hadd, hm]
  · intro hfail
    have hm := mapLoopAux_all_fail env.mapAttemptOk hfail 5 0
    constructor <;>
      simp [start, startTail, hrun, hrestore, hstart, hb, mapBuildDir, hadd, hm]

/-- Oracles for the C2 witness: VM not initially running, boot succeeds at
once, the first two mapping attempts fail and the third succeeds. -/
def c2Env : StartEnv :=
  { isRunningInit := false, acpiOk := true, stopPollOk := fun _ => Except.ok false,
    poweroffOk := true, restoreOk := true, startVmOk := true,
    sharedFolderAddOk := true, pingOk := fun _ => true,
    mapAttemptOk := fun i => decide (3 ≤ i) }

/-- Witness for C2: two failed mapping attempts, then success on the
third, so start succeeds after exactly 3 attempts. -/
theorem c2_start_mapping_retries_witness :
    (start "buildvm" c2Env).outcome = Except.ok ()
      ∧ (start "buildvm" c2Env).mapAttempts = 2 + 1 :=
  (c2_start_mapping_retries "buildvm" c2Env 2 rfl rfl rfl rfl rfl).1
    (by norm_num)
    (fun i h1 h2 => by simp [c2Env]; omega)
    (by simp [c2Env])

/-- If the start tail reports success, the mapping step succeeded with the
recorded attempt count. -/
theorem startTail_ok_implies_mapped (vmName : String) (env : StartEnv)
    (sc sr : Bool) (h : (startTail vmName env sc sr).outcome = Except.ok ()) :
    mapBuildDir env.sharedFolderAddOk env.mapAttemptOk
      = Except.ok ((startTail vmName env sc sr).mapAttempts)
    ∧ 1 ≤ (startTail vmName env sc sr).mapAttempts := by
  by_cases hrestore : env.restoreOk = true
  case neg => simp [startTail, hrestore] at h
  by_cases hstart : env.startVmOk = true
  case neg => simp [startTail, hrestore, hstart] at h
  rcases hb : bootPoll env.pingOk with ⟨b, polls⟩
  cases b with
  | false => simp [startTail, hrestore, hstart, hb] at h
  | true =>
      rcases hm : mapBuildDir env.sharedFolderAddOk env.mapAttemptOk with e | n
      · simp [startTail, hrestore, hstart, hb, hm] at h
      · refine ⟨?_, ?_⟩
        · simp [startTail, hrestore, hstart, hb, hm]
        · simp only [startTail, hrestore, hstart, hb, hm]
          simp
          exact mapBuildDir_ok_pos env.sharedFolderAddOk env.mapAttemptOk n hm

/-- C4: whenever start reports success, the mapping step completed
successfully beforehand, with at least one attempt performed and the
attempt count recorded in the result; start never reports success with the
mapping neither succeeded nor exhausted. -/
theorem c4_start_success_implies_mapped (vmName : String) (env : StartEnv)
    (h : (start vmName env).outcome = Except.ok ()) :
    mapBuildDir env.sharedFolderAddOk env.mapAttemptOk
      = Except.ok ((start vmName env).mapAttempts)
    ∧ 1 ≤ (start vmName env).mapAttempts := by
  by_cases hrun : env.isRunningInit = true
  · rcases hstop : stop env.acpiOk env.stopPollOk env.poweroffOk with e | r
    · simp [start, hrun, hstop] at h
    · have hs : start vmName env
          = startTail vmName env env.isRunningInit
              (!r.cleanShutdown && !env.poweroffOk) := by
        simp [start, hrun, hstop]
      rw [hs] at h ⊢
      exact startTail_ok_implies_mapped vmName env env.isRunningInit
        (!r.cleanShutdown && !env.poweroffOk) h
  · have hrun' : env.isRunningInit = false := by
      cases hx : env.isRunningInit
      · rfl
      · exact absurd hx hrun
    have hs : start vmName env = startTail vmName env env.isRunningInit false := by
      simp [start, hrun']
    rw [hs] at h ⊢
    exact startTail_ok_implies_mapped vmName env env.isRunningInit false h

/-- Oracles for the C4 witness: everything succeeds at once. -/
def c4Env : StartEnv :=
  { isRunningInit := false, acpiOk := true, stopPollOk := fun _ => Except.ok false,
    poweroffOk := true, restoreOk := true, startVmOk := true,
    sharedFolderAddOk := true, pingOk := fun _ => true,
    mapAttemptOk := fun _ => true }

/-- Witness for C4 at an all-success environment. -/
theorem c4_start_success_implies_mapped_witness :
    mapBuildDir c4Env.sharedFolderAddOk c4Env.mapAttemptOk
      = Except.ok ((start "buildvm" c4Env).mapAttempts)
    ∧ 1 ≤ (start "buildvm" c4Env).mapAttempts :=
  c4_start_success_implies_mapped "buildvm" c4Env rfl

/-- C5: with the earlier steps succeeding, a guest ping that never
succeeds makes start terminate with the failed-to-start error after
consuming the whole poll budget — the full 90-second window at one ping
per 2-second step, so exactly at the configured timeout and not earlier —
while a ping that first succeeds on poll index k within the budget makes
the poll loop exit successfully on that poll. -/
theorem c5_start_boot_timeout (vmName : String) (env : StartEnv)
    (hrun : env.isRunningInit = false) (hrestore : env.restoreOk = true)
    (hstart : env.startVmOk = true) :
    ((∀ n, env.pingOk n = false) →
       (start vmName env).outcome
         = Except.error ("Failed to start VM: " ++ vmName)
       ∧ (start vmName env).bootPolls = STARTVM_TIMEOUT / 2000
       ∧ 2000 * (start vmName env).bootPolls = STARTVM_TIMEOUT)
    ∧ (∀ k, k < STARTVM_TIMEOUT / 2000 →
        (∀ j, j < k → env.pingOk j = false) → env.pingOk k = true →
        bootPoll env.pingOk = (true, k + 1)) := by
  constructor
  · intro hping
    have hb : bootPoll env.pingOk = (false, STARTVM_TIMEOUT / 2000) := by
      have := bootPollAux_all_fail env.pingOk hping (STARTVM_TIMEOUT / 2000) 0
      simpa [bootPoll] using this
    refine ⟨?_, ?_, ?_⟩ <;>
      simp [start, startTail, hrun, hrestore, hstart, hb, STARTVM_TIMEOUT]
  · intro k hk hfail hsucc
    have := bootPollAux_first_success env.pingOk k (STARTVM_TIMEOUT / 2000) 0 hk
      (by simpa using hfail) (by simpa using hsucc)
    simpa [bootPoll] using this

/-- Oracles for the C5 witness: the guest ping never succeeds. -/
def c5Env : StartEnv :=
  { isRunningInit := false, acpiOk := true, stopPollOk := fun _ => Except.ok false,
    poweroffOk := true, restoreOk := true, startVmOk := true,
    sharedFolderAddOk := true, pingOk := fun _ => false,
    mapAttemptOk := fun _ => true }

/-- Witness for C5: a never-succeeding ping makes start fail with the
failed-to-start error after the full 45-poll budget. -/
theorem c5_start_boot_timeout_witness :
    (start "buildvm" c5Env).outcome
      = Except.error ("Failed to start VM: " ++ "buildvm")
    ∧ (start "buildvm" c5Env).bootPolls = STARTVM_TIMEOUT / 2000
    ∧ 2000 * (start "buildvm" c5Env).bootPolls = STARTVM_TIMEOUT :=
  (c5_start_boot_timeout "buildvm" c5Env rfl rfl rfl).1 (fun _ => rfl)

/-- Oracles for the C8 counterexample: the VM is initially running, every
shutdown poll still reports it running, and both the ACPI power button and
the forced power-off fail, so the internal stop fails to stop the VM. -/
def c8Env : StartEnv :=
  { isRunningInit := true, acpiOk := false, stopPollOk := fun _ => Except.ok true,
    poweroffOk := false, restoreOk := true, startVmOk := true,
    sharedFolderAddOk := true, pingOk := fun _ => true,
    mapAttemptOk := fun _ => true }

/-- C8 counterexample: in a behaviour where the internal stop fails to
stop the VM (shutdown polls keep reporting it running and the forced
power-off fails, which stop swallows), start nevertheless proceeds to the
snapshot restore with the VM still running, contradicting the claim that
start never attempts a snapshot restore on a VM it just failed to stop. -/
theorem c8_restore_despite_failed_stop :
    (start "buildvm" c8Env).vmRunningAtRestore = true
    ∧ (start "buildvm" c8Env).restoreAttempted = true := by
  constructor <;> rfl

/-- The start tail always attempts the snapshot restore. -/
theorem startTail_restore_attempted (vmName : String) (env : StartEnv)
    (sc sr : Bool) : (startTail vmName env sc sr).restoreAttempted = true := by
  unfold startTail
  split
  · split
    · split
      · split <;> rfl
      · rfl
    · rfl
  · rfl

/-- The start tail reports the stop-called flag it was given. -/
theorem startTail_stop_called (vmName : String) (env : StartEnv)
    (sc sr : Bool) : (startTail vmName env sc sr).stopCalled = sc := by
  unfold startTail
  split
  · split
    · split
      · split <;> rfl
      · rfl
    · rfl
  · rfl

/-- C8 as amended: start invokes the internal stop if and only if the VM
is reported running, and whenever that stop returns normally (which it
does even when the VM is still running afterwards), start proceeds
unconditionally to the snapshot restore. -/
theorem c8_stop_iff_running_restore_unconditional (vmName : String)
    (env : StartEnv) :
    (start vmName env).stopCalled = env.isRunningInit
    ∧ ((env.isRunningInit = false
          ∨ ∃ r, stop env.acpiOk env.stopPollOk env.poweroffOk = Except.ok r) →
        (start vmName env).restoreAttempted = true) := by
  constructor
  · simp only [start]
    split
    · rfl
    · exact startTail_stop_called vmName env env.isRunningInit _
  · rintro (hrun | ⟨r, hr⟩)
    · have hs : start vmName env = startTail vmName env env.isRunningInit false := by
        simp [start, hrun]
      rw [hs]
      exact startTail_restore_attempted vmName env env.isRunningInit false
    · by_cases hrun : env.isRunningInit = true
      · have hs : start vmName env
            = startTail vmName env env.isRunningInit
                (!r.cleanShutdown && !env.poweroffOk) := by
          simp [start, hrun, hr]
        rw [hs]
        exact startTail_restore_attempted vmName env env.isRunningInit _
      · have hrun' : env.isRunningInit = false := by
          cases hx : env.isRunningInit
          · rfl
          · exact absurd hx hrun
        have hs : start vmName env
            = startTail vmName env env.isRunningInit false := by
          simp [start, hrun']
        rw [hs]
        exact startTail_restore_attempted vmName env env.isRunningInit false

/-- Witness for C8 as amended, at the environment of the counterexample:
the stop is called because the VM is reported running, its forced
power-off failure is swallowed, and the restore is still attempted. -/
theorem c8_stop_iff_running_restore_unconditional_witness :
    (start "buildvm" c8Env).stopCalled = true
    ∧ (start "buildvm" c8Env).restoreAttempted = true :=
  ⟨(c8_stop_iff_running_restore_unconditional "buildvm" c8Env).1.trans rfl,
   (c8_stop_iff_running_restore_unconditional "buildvm" c8Env).2
     (Or.inr ⟨{ cleanShutdown := false, poweroffAttempted := true, polls := 20 },
       rfl⟩)⟩

/-- Witness for C9 at a concrete environment list. -/
theorem c9_runScript_contents_and_guest_env_witness :
    ("CSC_KEY" ++ "=" ++ "abc")
      ∈ guestCtlArgs "vm" "u" "p" "bk" "kc" [("CSC_KEY", "abc")] "z:\\tmp.cmd" :=
  (c9_runScript_contents_and_guest_env "cwd" "vm" "u" "p" "bk" "kc" "amd64" ""
    [("CSC_KEY", "abc")] (Except.ok ()) ("CSC_KEY", "abc") (by simp)).2.2

end ElementBuilder
